import Mathlib

/-!
Verification of the eink-proxy image-recoloring pipeline.

This file gives a shallow embedding of the pipeline core
(`eink_proxy/config.py`, `eink_proxy/processing/palette.py`,
`eink_proxy/processing/dither.py`, `eink_proxy/processing/masking.py`,
`eink_proxy/processing/pipeline.py`) and proves or refutes the frozen
specification claims about it.

Modelling conventions:
* 8-bit pixel channels are naturals; images are total functions from
  pixel coordinates (the Python code only ever reads coordinates inside
  the raster, so out-of-range values are irrelevant junk).
* Python floats are modelled as exact rationals (the decimal literals
  0.2126, 1e-6, k/42, ... become the corresponding rationals).  For
  every comparison appearing in the embedded code the float and the
  exact-rational computation agree on all 8-bit inputs (the boundary
  cases were checked exhaustively), so this does not change any verdict.
* `int(...)` is truncation toward zero; `int(0.1 * v)` equals `v / 10`
  (Nat division) for all `v ≤ 255`.
* PIL library primitives whose pixel-exact output is defined by the PIL
  implementation rather than by this repository (convolutions, blurs,
  rank filters, enhancement operators, mode conversions) are abstracted
  as fields of a `PILOps` parameter; primitives with simple documented
  integer semantics (point LUTs, ImageChops subtract / lighter /
  multiply / difference, paste and composite mask blending via the
  MULDIV255 formula) are embedded exactly.
* Fallible Python code is modelled with `Except String`: in particular
  `enhance.py` uses `ImageChops` without importing it, so
  `darken_lines` (and everything that calls it) raises `NameError`,
  and `pipeline.py` line 147 passes a keyword argument `settings` that
  `palette_fit_mask` does not accept, which raises `TypeError`.
-/

set_option maxRecDepth 10000

namespace EinkProxy

/-- An RGB pixel: three 8-bit channels, modelled as naturals. -/
abbrev RGB : Type := ℕ × ℕ × ℕ

/-- A single-channel ("L" mode) image, pixels addressed as `x`, `y`. -/
abbrev GrayImg : Type := ℕ → ℕ → ℕ

/-- An RGB image, pixels addressed as `x`, `y`. -/
abbrev RGBImg : Type := ℕ → ℕ → RGB

/-- config.py lines 66-74: the fixed 7-ink hardware palette
(black, white, red, yellow, green, blue, orange). -/
def EINK_PALETTE : List RGB :=
  [(0, 0, 0), (255, 255, 255), (255, 0, 0), (255, 255, 0),
   (0, 255, 0), (0, 0, 255), (255, 165, 0)]

/-- Palette entry at a natural index (all uses in the code are in 0..6;
the default is never reached there). -/
def palColor (i : ℕ) : RGB := EINK_PALETTE.getD i (0, 0, 0)

/-- Python list indexing for the palette: negative indices wrap from the
end; a genuinely out-of-range index raises in Python and is modelled as
junk `(0,0,0)` (never reached by the embedded code). -/
def pyListGet (l : List RGB) (i : ℤ) : RGB :=
  let j : ℤ := if 0 ≤ i then i else (l.length : ℤ) + i
  if 0 ≤ j ∧ j < (l.length : ℤ) then l.getD j.toNat (0, 0, 0) else (0, 0, 0)

/-- palette.py lines 21-25 (`_is_neutral`): a pixel is neutral when
`max − min ≤ max(12, int(0.1 * max))`; `int(0.1 * v) = v / 10` for
8-bit values. -/
def is_neutral (rgb : RGB) : Bool :=
  let max_channel := max rgb.1 (max rgb.2.1 rgb.2.2)
  let min_channel := min rgb.1 (min rgb.2.1 rgb.2.2)
  decide (max_channel - min_channel ≤ max 12 (max_channel / 10))

/-- palette.py line 33: Rec.709 luma `0.2126 R + 0.7152 G + 0.0722 B`,
as an exact rational (used to state the claims the way the spec writes
them). -/
def luminanceQ (rgb : RGB) : ℚ :=
  (2126 * (rgb.1 : ℚ) + 7152 * (rgb.2.1 : ℚ) + 722 * (rgb.2.2 : ℚ)) / 10000

/-- palette.py lines 28-34 (`_nearest_bw`): black for luminance ≤ 200,
white otherwise.  The float comparison `0.2126r + 0.7152g + 0.0722b <= 200`
is embedded as the exact integer comparison obtained by scaling by 10⁴;
the two agree on all 8-bit channel values (checked exhaustively,
including the sixteen inputs whose exact luminance is exactly 200), and
`luminance_le_iff` below relates this form to `luminanceQ`.  (Lines
35-37 of the source are dead code after the `return` and are not
modelled.) -/
def nearest_bw (rgb : RGB) : ℕ :=
  if 2126 * rgb.1 + 7152 * rgb.2.1 + 722 * rgb.2.2 ≤ 2000000 then 0 else 1

/-- Squared Euclidean RGB distance, exact (Python computes it in
unbounded ints). -/
def sqDistZ (c : RGB) (rgb : RGB) : ℤ :=
  ((c.1 : ℤ) - (rgb.1 : ℤ)) ^ 2 + ((c.2.1 : ℤ) - (rgb.2.1 : ℤ)) ^ 2 +
    ((c.2.2 : ℤ) - (rgb.2.2 : ℤ)) ^ 2

/-- Python `min(a, b)` on two floats: `b` if `b < a`, else `a`. -/
def pymin (a b : ℚ) : ℚ := if b < a then b else a

/-- Python `max(a, b)` on two floats: `b` if `a < b`, else `a`. -/
def pymax (a b : ℚ) : ℚ := if a < b then b else a

/-- Strict comparison against a running best distance; `none` plays the
role of the initial `float("inf")`. -/
def distLtOpt (d : ℤ) : Option ℤ → Bool
  | Option.none => true
  | Option.some bd => decide (d < bd)

/-- One step of the `nearest_palette_index` scan (palette.py lines
47-51): replace the running best on a strictly smaller distance. -/
def nearestStep (rgb : RGB) (best : ℕ × Option ℤ) (ip : ℕ × RGB) :
    ℕ × Option ℤ :=
  if distLtOpt (sqDistZ ip.2 rgb) best.2 then
    (ip.1, Option.some (sqDistZ ip.2 rgb))
  else best

/-- palette.py lines 40-52 (`nearest_palette_index`): neutral pixels are
routed to the black/white chooser; otherwise a running strict-minimum
scan over the palette (first minimum wins). -/
def nearest_palette_index (rgb : RGB) : ℕ :=
  if is_neutral rgb then nearest_bw rgb
  else (EINK_PALETTE.enum.foldl (nearestStep rgb) (0, Option.none)).1

/-- palette.py lines 55-68 (`nearest_two_palette`): neutral pixels give
(black, white); otherwise a running top-2 scan.  The state mirrors the
Python `best` list: (distance, index) pairs with `none` for the initial
infinity and `-1` for the initial sentinel index. -/
def nearest_two_palette (rgb : RGB) : ℤ × ℤ :=
  if is_neutral rgb then (0, 1)
  else
    let r := EINK_PALETTE.enum.foldl
      (fun (best : (Option ℤ × ℤ) × (Option ℤ × ℤ)) ip =>
        let d := sqDistZ ip.2 rgb
        if distLtOpt d best.1.1 then ((Option.some d, (ip.1 : ℤ)), best.1)
        else if distLtOpt d best.2.1 then (best.1, (Option.some d, (ip.1 : ℤ)))
        else best)
      ((Option.none, -1), (Option.none, -1))
    (r.1.2, r.2.2)

/-- palette.py lines 74-80: the least-squares numerator
`Σ_c (A_c − B_c)(rgb_c − B_c)`. -/
def mixNumerQ (rgb : RGB) (color_a_index color_b_index : ℤ) : ℚ :=
  let ca := pyListGet EINK_PALETTE color_a_index
  let cb := pyListGet EINK_PALETTE color_b_index
  ((ca.1 : ℚ) - (cb.1 : ℚ)) * ((rgb.1 : ℚ) - (cb.1 : ℚ)) +
    ((ca.2.1 : ℚ) - (cb.2.1 : ℚ)) * ((rgb.2.1 : ℚ) - (cb.2.1 : ℚ)) +
    ((ca.2.2 : ℚ) - (cb.2.2 : ℚ)) * ((rgb.2.2 : ℚ) - (cb.2.2 : ℚ))

/-- palette.py lines 75-81: the epsilon-guarded denominator
`1e-6 + Σ_c (A_c − B_c)²`. -/
def mixDenomQ (color_a_index color_b_index : ℤ) : ℚ :=
  let ca := pyListGet EINK_PALETTE color_a_index
  let cb := pyListGet EINK_PALETTE color_b_index
  1 / 1000000 + (((ca.1 : ℚ) - (cb.1 : ℚ)) ^ 2 +
    ((ca.2.1 : ℚ) - (cb.2.1 : ℚ)) ^ 2 + ((ca.2.2 : ℚ) - (cb.2.2 : ℚ)) ^ 2)

/-- palette.py lines 71-83 (`mix_ratio`): least-squares projection of
`rgb` onto the segment from palette color B to palette color A, clamped
to [0,1]. -/
def mixRatioQ (rgb : RGB) (color_a_index color_b_index : ℤ) : ℚ :=
  pymax 0 (pymin 1 (mixNumerQ rgb color_a_index color_b_index /
    mixDenomQ color_a_index color_b_index))

/-- Exact squared distance between two RGB triples over ℚ (used to state
the amended mix-ratio claim). -/
def sqDistQ (c d : RGB) : ℚ :=
  ((c.1 : ℚ) - (d.1 : ℚ)) ^ 2 + ((c.2.1 : ℚ) - (d.2.1 : ℚ)) ^ 2 +
    ((c.2.2 : ℚ) - (d.2.2 : ℚ)) ^ 2

/-- dither.py lines 77-86 (and pipeline.py lines 12-21): the fixed 8×8
Bayer threshold matrix with values 0-63. -/
def bayerM : List (List ℕ) :=
  [[0, 48, 12, 60, 3, 51, 15, 63],
   [32, 16, 44, 28, 35, 19, 47, 31],
   [8, 56, 4, 52, 11, 59, 7, 55],
   [40, 24, 36, 20, 43, 27, 39, 23],
   [2, 50, 14, 62, 1, 49, 13, 61],
   [34, 18, 46, 30, 33, 17, 45, 29],
   [10, 58, 6, 54, 9, 57, 5, 53],
   [42, 26, 38, 22, 41, 25, 37, 21]]

/-- dither.py line 94: `bayer[y & 7][x & 7]`. -/
def bayerAt (x y : ℕ) : ℕ := (bayerM.getD (y &&& 7) []).getD (x &&& 7) 0

/-- dither.py lines 74-97 (`ordered_two_color`): per-pixel two-color
ordered dithering.  `grad_mask` is accepted but unused, exactly as in
the source. -/
def ordered_two_color (img : RGBImg) (grad_mask : GrayImg) : RGBImg :=
  fun x y =>
    let p := img x y
    let ab := nearest_two_palette p
    let alpha := mixRatioQ p ab.1 ab.2
    let threshold : ℚ := ((bayerAt x y : ℚ) + 8) / 72
    if threshold ≤ alpha then pyListGet EINK_PALETTE ab.1
    else pyListGet EINK_PALETTE ab.2

/-- Python `min(255, max(0, v))` on an integer channel value. -/
def clamp255 (z : ℤ) : ℕ :=
  if z ≤ 0 then 0 else if 255 ≤ z then 255 else z.toNat

/-- Python `int(...)` truncation toward zero, on exact rationals. -/
def pytrunc (q : ℚ) : ℤ := if 0 ≤ q then q.floor else q.ceil

/-- Point update of an RGB image (a PIL pixel-access store). -/
def setPix (g : RGBImg) (x y : ℕ) (v : RGB) : RGBImg :=
  fun a b => if a = x ∧ b = y then v else g a b

/-- dither.py line 42: Stucki row+1 weights. -/
def kernel1 : List ℕ := [2, 4, 8, 4, 2]

/-- dither.py line 43: Stucki row+2 weights. -/
def kernel2 : List ℕ := [1, 2, 4, 2, 1]

/-- dither.py lines 50-58, one (offset, kernel) entry: skip rows past
the bottom; otherwise add `int(error * factor)` to each channel of the
neighbor and clamp to [0, 255]. -/
def stuckiUpdate (h nx ny : ℕ) (factor : ℚ) (err : ℤ × ℤ × ℤ)
    (g : RGBImg) : RGBImg :=
  if h ≤ ny then g
  else
    let p := g nx ny
    setPix g nx ny
      (clamp255 ((p.1 : ℤ) + pytrunc ((err.1 : ℚ) * factor)),
       clamp255 ((p.2.1 : ℤ) + pytrunc ((err.2.1 : ℚ) * factor)),
       clamp255 ((p.2.2 : ℤ) + pytrunc ((err.2.2 : ℚ) * factor)))

/-- dither.py lines 46-58, one `dx` step of `add_error`: mirror the
offset on reversed rows, skip off-raster columns, then update the row+1
and row+2 neighbors with weights `kernel[dx+2] / 42`. -/
def addErrorDx (w h x y : ℕ) (err : ℤ × ℤ × ℤ) (flip : Bool)
    (g : RGBImg) (dx : ℤ) : RGBImg :=
  let nx : ℤ := if flip then (x : ℤ) - dx else (x : ℤ) + dx
  if nx < 0 ∨ (w : ℤ) ≤ nx then g
  else
    let g1 := stuckiUpdate h nx.toNat (y + 1)
      ((kernel1.getD (dx + 2).toNat 0 : ℚ) / 42) err g
    stuckiUpdate h nx.toNat (y + 2)
      ((kernel2.getD (dx + 2).toNat 0 : ℚ) / 42) err g1

/-- dither.py lines 45-58 (`add_error`): distribute the quantization
error of the visited pixel over `dx ∈ -2..2`. -/
def add_error (w h x y : ℕ) (err : ℤ × ℤ × ℤ) (flip : Bool)
    (g : RGBImg) : RGBImg :=
  ([-2, -1, 0, 1, 2] : List ℤ).foldl (addErrorDx w h x y err flip) g

/-- dither.py lines 63-69: one pixel visit in scan order.  The state is
(working copy, output image); the visited pixel of the working copy is
quantized to the nearest palette color, that color is written to the
output, and the per-channel error is diffused into the working copy. -/
def stuckiVisit (w h : ℕ) (st : RGBImg × RGBImg) (pos : ℕ × ℕ × Bool) :
    RGBImg × RGBImg :=
  let old := st.1 pos.1 pos.2.1
  let new := palColor (nearest_palette_index old)
  let err : ℤ × ℤ × ℤ :=
    ((old.1 : ℤ) - (new.1 : ℤ), (old.2.1 : ℤ) - (new.2.1 : ℤ),
     (old.2.2 : ℤ) - (new.2.2 : ℤ))
  (add_error w h pos.1 pos.2.1 err pos.2.2 st.1,
   setPix st.2 pos.1 pos.2.1 new)

/-- dither.py lines 60-62: positions of one scan row; odd rows are
visited right-to-left with the `flip` flag set. -/
def serpRow (w y : ℕ) : List (ℕ × ℕ × Bool) :=
  let flip := y % 2 == 1
  (if flip then (List.range w).reverse else List.range w).map
    (fun x => (x, y, flip))

/-- dither.py lines 60-63: the full serpentine scan order. -/
def serpPositions (w h : ℕ) : List (ℕ × ℕ × Bool) :=
  (List.range h).bind (serpRow w)

/-- dither.py lines 35-71 (`stucki_error_diffusion`): serpentine Stucki
error diffusion.  The Python code copies the input
(`src = img.convert("RGB")` returns a fresh copy) and mutates only that
copy, so the callers image stays untouched — purity is inherent in this
embedding.  The output image starts black, as `Image.new` creates it. -/
def stucki_error_diffusion (w h : ℕ) (img : RGBImg) : RGBImg :=
  ((serpPositions w h).foldl (stuckiVisit w h)
    (img, fun _ _ => (0, 0, 0))).2

/-- Spec-side transcription of the error-distribution sentence of claim C6:
for each horizontal offset −2..+2 (mirrored on reversed rows, clipped
at the raster sides), the error is added to the row+1 neighbor with
weight [2,4,8,4,2]/42 and to the row+2 neighbor with weight
[1,2,4,2,1]/42, each updated channel clamped to [0,255]. -/
def stuckiSpecDistribute (w h x y : ℕ) (err : ℤ × ℤ × ℤ) (flip : Bool)
    (g : RGBImg) : RGBImg :=
  (([-2, -1, 0, 1, 2] : List ℤ).zip (kernel1.zip kernel2)).foldl
    (fun g p =>
      let nx : ℤ := if flip then (x : ℤ) - p.1 else (x : ℤ) + p.1
      if nx < 0 ∨ (w : ℤ) ≤ nx then g
      else
        stuckiUpdate h nx.toNat (y + 2) ((p.2.2 : ℚ) / 42) err
          (stuckiUpdate h nx.toNat (y + 1) ((p.2.1 : ℚ) / 42) err g))
    g

/-- Spec-side transcription of the per-pixel sentence of claim C6: output the
nearest palette color of the current working value and distribute the
per-channel error (working value minus chosen color). -/
def stuckiSpecVisit (w h : ℕ) (st : RGBImg × RGBImg)
    (pos : ℕ × ℕ × Bool) : RGBImg × RGBImg :=
  let old := st.1 pos.1 pos.2.1
  let new := palColor (nearest_palette_index old)
  let err : ℤ × ℤ × ℤ :=
    ((old.1 : ℤ) - (new.1 : ℤ), (old.2.1 : ℤ) - (new.2.1 : ℤ),
     (old.2.2 : ℤ) - (new.2.2 : ℤ))
  (stuckiSpecDistribute w h pos.1 pos.2.1 err pos.2.2 st.1,
   setPix st.2 pos.1 pos.2.1 new)

/-- Spec-side transcription of the scan-order sentence of claim C6: one row,
left-to-right on even rows and right-to-left on odd rows. -/
def serpSpecRow (w y : ℕ) : List (ℕ × ℕ × Bool) :=
  if y % 2 == 1 then (List.range w).reverse.map (fun x => (x, y, true))
  else (List.range w).map (fun x => (x, y, false))

/-- Spec-side serpentine scan order. -/
def serpSpecPositions (w h : ℕ) : List (ℕ × ℕ × Bool) :=
  (List.range h).bind (serpSpecRow w)

/-- Spec-side model of the whole Stucki pass, assembled from the
sentences of the claim. -/
def stucki_spec (w h : ℕ) (img : RGBImg) : RGBImg :=
  ((serpSpecPositions w h).foldl (stuckiSpecVisit w h)
    (img, fun _ _ => (0, 0, 0))).2

/-- An image is palette-closed when every pixel is one of the 7 palette
entries. -/
def palClosed (g : RGBImg) : Prop :=
  ∀ x y : ℕ, ∃ i, i < 7 ∧ g x y = palColor i

/-- config.py lines 7-30 (`ProxySettings`): the tunable parameters the
pipeline consumes.  The network/server fields (source_url, port,
timeout, retries, cache_ttl, log_level) play no role in the embedded
processing code and are omitted.  Integer env fields are ℤ (parsed with
`int(...)`, possibly negative), float fields ℚ. -/
structure ProxySettings where
  contrast : ℚ
  saturation : ℚ
  sharpness_ui : ℚ
  gamma : ℚ
  edge_threshold : ℤ
  mid_l_min : ℤ
  mid_l_max : ℤ
  mid_s_max : ℤ
  mask_blur : ℤ
  photo_mode : String
  sky_gradient_threshold : ℤ
  smooth_strength : ℤ
  ui_palette_threshold : ℤ
  ui_tint_saturation : ℤ
  ui_tint_min_value : ℤ
  texture_density_threshold : ℤ

/-- config.py lines 34-60: the `from_env` default values, in the field
order of `ProxySettings` (contrast 1.25, saturation 1.2, sharpness 2.0,
gamma 0.95, edge 26, mid-L 70/200, mid-S 90, blur 2, mode hybrid, sky
14, smooth 1, palette 1800, tint-sat 35, tint-V 120, texture 12). -/
def defaultSettings : ProxySettings :=
  ⟨5 / 4, 6 / 5, 2, 19 / 20, 26, 70, 200, 90, 2, "hybrid", 14, 1, 1800,
   35, 120, 12⟩

/-- The PIL primitives whose pixel-exact semantics live inside the PIL
library rather than in this repository: convolutions (FIND_EDGES,
UnsharpMask), blurs (BoxBlur, GaussianBlur), rank filters (Max, Min,
Median), mode conversions ("L", "HSV"), the ImageEnhance operators, the
library Floyd-Steinberg quantizer, and the real power used by the gamma
LUT.  The embedding is parametric in them: a theorem quantifying over a
`PILOps` holds for every possible behavior of these primitives. -/
structure PILOps where
  findEdges : GrayImg → GrayImg
  boxBlur : ℕ → GrayImg → GrayImg
  gaussBlur : ℚ → GrayImg → GrayImg
  maxFilter : ℕ → GrayImg → GrayImg
  minFilter : ℕ → GrayImg → GrayImg
  medianFilterL : ℕ → GrayImg → GrayImg
  toGray : RGBImg → GrayImg
  toHSV : RGBImg → GrayImg × GrayImg × GrayImg
  contrastEnh : ℚ → RGBImg → RGBImg
  colorEnh : ℚ → RGBImg → RGBImg
  sharpnessEnh : ℚ → RGBImg → RGBImg
  unsharpMaskF : ℕ → ℕ → ℕ → RGBImg → RGBImg
  quantizeFS : RGBImg → RGBImg
  rpow : ℚ → ℚ → ℚ

/-- `Image.point` with a per-value LUT on an L image. -/
def pointL (f : ℕ → ℕ) (img : GrayImg) : GrayImg := fun x y => f (img x y)

/-- `ImageOps.invert` on an L image: 255 − v. -/
def invertL (img : GrayImg) : GrayImg := fun x y => 255 - img x y

/-- `ImageChops.subtract` with default scale and offset:
`clip(a − b)` into [0, 255] (Nat subtraction already clips below). -/
def chopsSubtract (a b : GrayImg) : GrayImg :=
  fun x y => min 255 (a x y - b x y)

/-- `ImageChops.lighter`: pointwise maximum. -/
def chopsLighter (a b : GrayImg) : GrayImg := fun x y => max (a x y) (b x y)

/-- The Pillow MULDIV255 rounding primitive:
`tmp = a*b + 128; ((tmp >> 8) + tmp) >> 8`. -/
def muldiv255 (a b : ℕ) : ℕ := ((a * b + 128) / 256 + (a * b + 128)) / 256

/-- `ImageChops.multiply`: MULDIV255 per pixel. -/
def chopsMultiply (a b : GrayImg) : GrayImg :=
  fun x y => muldiv255 (a x y) (b x y)

/-- `ImageChops.difference` per channel on RGB images: |a − b|. -/
def chopsDifferenceRGB (a b : RGBImg) : RGBImg :=
  fun x y =>
    (max (a x y).1 (b x y).1 - min (a x y).1 (b x y).1,
     max (a x y).2.1 (b x y).2.1 - min (a x y).2.1 (b x y).2.1,
     max (a x y).2.2 (b x y).2.2 - min (a x y).2.2 (b x y).2.2)

/-- The Pillow paste/composite blend for one channel: where the 8-bit
mask is m, the result is `MULDIV255(base, 255−m) + MULDIV255(src, m)`;
m = 255 copies src exactly, m = 0 keeps base, intermediate values
blend. -/
def pilBlend (m base src : ℕ) : ℕ :=
  muldiv255 base (255 - m) + muldiv255 src m

/-- `base.paste(src, mask=mask)` on RGB images with an L-mode mask. -/
def pasteMask (base src : RGBImg) (mask : GrayImg) : RGBImg :=
  fun x y =>
    (pilBlend (mask x y) (base x y).1 (src x y).1,
     pilBlend (mask x y) (base x y).2.1 (src x y).2.1,
     pilBlend (mask x y) (base x y).2.2 (src x y).2.2)

/-- `Image.composite(a, b, mask)`: b pasted-over by a under the mask. -/
def imageComposite (a b : RGBImg) (mask : GrayImg) : RGBImg :=
  pasteMask b a mask

/-- masking.py lines 10-15 (`threshold_channel`): 255 where the channel
value is ≥ threshold, else 0; optionally inverted. -/
def threshold_channel (channel : GrayImg) (threshold : ℤ) (invert : Bool) :
    GrayImg :=
  let mask := pointL (fun v => if threshold ≤ (v : ℤ) then 255 else 0) channel
  if invert then invertL mask else mask

/-- masking.py lines 18-32 (`compute_texture_energy`): box-blurred edge
density. -/
def compute_texture_energy (F : PILOps) (gray_src : GrayImg) (radius : ℕ) :
    GrayImg :=
  F.boxBlur radius (F.findEdges gray_src)

/-- Intermediate products of masking.py `build_masks` (lines 35-94),
named after the local variables of the source.  `clean_edges_raw` is
the post-subtraction edge mask of line 54, before the despeckle Min/Max
filters and the Gaussian blur. -/
structure MaskSteps where
  gray : GrayImg
  texture_energy : GrayImg
  photo_mask : GrayImg
  edges : GrayImg
  strong_edges : GrayImg
  clean_edges_raw : GrayImg
  clean_edges : GrayImg
  edge_mask : GrayImg
  grad : GrayImg
  flat_raw : GrayImg
  flat : GrayImg
  mid_l : GrayImg
  low_sat : GrayImg
  mid_gray_mask : GrayImg

/-- masking.py lines 35-94 (`build_masks`), every intermediate kept. -/
def buildMasksSteps (F : PILOps) (src_rgb : RGBImg)
    (settings : ProxySettings) : MaskSteps :=
  let gray := F.toGray src_rgb
  let texture_energy := compute_texture_energy F gray 3
  let photo_mask0 :=
    threshold_channel texture_energy settings.texture_density_threshold false
  let photo_mask1 := F.maxFilter 3 photo_mask0
  let photo_mask := F.gaussBlur 2 photo_mask1
  let edges := F.findEdges gray
  let strong_edges := threshold_channel edges settings.edge_threshold false
  let clean_edges_raw := chopsSubtract strong_edges photo_mask
  let clean_edges1 := F.minFilter 3 clean_edges_raw
  let clean_edges := F.maxFilter 3 clean_edges1
  let edge_mask := F.gaussBlur (settings.mask_blur : ℚ) clean_edges
  let grad := F.gaussBlur 1 edges
  let flat_raw := pointL
    (fun p => if (p : ℤ) < settings.sky_gradient_threshold then 255 else 0)
    grad
  let flat0 := F.maxFilter 5 flat_raw
  let flat := chopsSubtract flat0 clean_edges
  let hsv := F.toHSV src_rgb
  let saturation := hsv.2.1
  let value := hsv.2.2
  let mid_l := chopsSubtract
    (threshold_channel value settings.mid_l_min false)
    (threshold_channel value settings.mid_l_max false)
  let low_sat := threshold_channel saturation settings.mid_s_max true
  let mid_gray0 := chopsMultiply mid_l low_sat
  let mid_gray1 := chopsSubtract mid_gray0 photo_mask
  let mid_gray_mask := F.gaussBlur (settings.mask_blur : ℚ) mid_gray1
  ⟨gray, texture_energy, photo_mask, edges, strong_edges, clean_edges_raw,
   clean_edges, edge_mask, grad, flat_raw, flat, mid_l, low_sat,
   mid_gray_mask⟩

/-- masking.py line 94: `build_masks` returns
(edge_mask, mid_gray_mask, flat, photo_mask).  (In Python the settings
parameter defaults to the global SETTINGS; callers in pipeline.py pass
it explicitly.) -/
def build_masks (F : PILOps) (src_rgb : RGBImg) (settings : ProxySettings) :
    GrayImg × GrayImg × GrayImg × GrayImg :=
  let s := buildMasksSteps F src_rgb settings
  (s.edge_mask, s.mid_gray_mask, s.flat, s.photo_mask)

/-- palette.py lines 86-112 (`palette_fit_mask`): 255 where the squared
source/quantized distance is at most the threshold.  When `threshold`
is None, the threshold is read from the process-global `SETTINGS` —
modelled by the explicit `globalSettings` argument standing for the
module-level global object. -/
def palette_fit_mask (globalSettings : ProxySettings)
    (src quantized : RGBImg) (threshold : Option ℤ) : GrayImg :=
  let distance_threshold :=
    match threshold with
    | Option.none => globalSettings.ui_palette_threshold
    | Option.some t => t
  fun x y =>
    if sqDistZ (src x y) (quantized x y) ≤ distance_threshold then 255
    else 0

/-- A concrete trivial instantiation of the abstract PIL primitives
(identity filters, R-channel gray conversion, RGB-bands HSV, identity
enhancers, zero power), used by witnesses to evaluate the
filter-parametric theorems on closed inputs. -/
def trivialOps : PILOps :=
  ⟨fun g => g, fun _ g => g, fun _ g => g, fun _ g => g, fun _ g => g,
   fun _ g => g, fun img => fun x y => (img x y).1,
   fun img =>
     (fun x y => (img x y).1, fun x y => (img x y).2.1,
      fun x y => (img x y).2.2),
   fun _ img => img, fun _ img => img, fun _ img => img,
   fun _ _ _ img => img, fun img => img, fun _ _ => 0⟩

/-- A solid white probe raster. -/
def whiteImg : RGBImg := fun _ _ => (255, 255, 255)

/-- Global-settings probe A: the environment defaults
(ui_palette_threshold 1800). -/
def gA : ProxySettings := defaultSettings

/-- Global-settings probe B: identical to A except
ui_palette_threshold = 100 (a runtime retuning of the live global). -/
def gB : ProxySettings :=
  ⟨5 / 4, 6 / 5, 2, 19 / 20, 26, 70, 200, 90, 2, "hybrid", 14, 1, 100,
   35, 120, 12⟩

/-- A probe source raster for `palette_fit_mask`. -/
def srcProbe : RGBImg := fun _ _ => (0, 0, 0)

/-- A probe quantized raster at squared distance 900 from `srcProbe`. -/
def quantProbe : RGBImg := fun _ _ => (30, 0, 0)

/-- enhance.py lines 8-16 (`apply_gamma`): identity when γ differs from
1 by less than 1e-3; otherwise the per-channel LUT
`min(255, max(0, int((v/255)^(1/γ) * 255 + 0.5)))`, with the real power
given by the abstract `F.rpow`. -/
def apply_gamma (F : PILOps) (img : RGBImg) (gamma : ℚ) : RGBImg :=
  if |gamma - 1| < 1 / 1000 then img
  else
    let lut : ℕ → ℕ := fun v =>
      clamp255 (pytrunc (F.rpow ((v : ℚ) / 255) (1 / gamma) * 255 + 1 / 2))
    fun x y => (lut (img x y).1, lut (img x y).2.1, lut (img x y).2.2)

/-- enhance.py lines 19-38 (`darken_lines`): the source inverts the
grayscale, dilates it with a 3×3 max filter and re-inverts; then line
38 evaluates `ImageChops.multiply(img, thickened_rgb)` — but enhance.py
imports only Image, ImageEnhance, ImageFilter and ImageOps, so the name
`ImageChops` is unbound and Python raises NameError before the multiply
runs.  Modelled as that error. -/
def darken_lines (F : PILOps) (img : RGBImg) : Except String RGBImg :=
  let gray := invertL (F.toGray img)
  let thickened := F.maxFilter 3 gray
  let _thickened_inv := invertL thickened
  Except.error "NameError: name ImageChops is not defined"

/-- enhance.py lines 41-54 (`enhance_ui`): darken lines, then contrast,
saturation, gamma, sharpness and unsharp mask.  The `darken_lines` call
raises, so everything after it is dead code, transcribed faithfully. -/
def enhance_ui (F : PILOps) (img : RGBImg) (settings : ProxySettings) :
    Except String RGBImg :=
  match darken_lines F img with
  | Except.error e => Except.error e
  | Except.ok img1 =>
    let img2 := F.contrastEnh settings.contrast img1
    let img3 := F.colorEnh settings.saturation img2
    let img4 := apply_gamma F img3 settings.gamma
    let img5 := F.sharpnessEnh settings.sharpness_ui img4
    Except.ok (F.unsharpMaskF 1 150 3 img5)

/-- enhance.py lines 57-63 (`enhance_photo`): contrast, saturation,
gamma, then light sharpening with factor 1.2. -/
def enhance_photo (F : PILOps) (img : RGBImg) (settings : ProxySettings) :
    RGBImg :=
  let img1 := F.contrastEnh settings.contrast img
  let img2 := F.colorEnh settings.saturation img1
  let img3 := apply_gamma F img2 settings.gamma
  F.sharpnessEnh (6 / 5) img3

/-- pipeline.py lines 34-43 (`quantize_palette_none`): per-pixel
nearest-palette mapping. -/
def quantize_palette_none (img : RGBImg) : RGBImg :=
  fun x y => palColor (nearest_palette_index (img x y))

/-- pipeline.py lines 31-32 (`quantize_palette_fs`): the library
Floyd-Steinberg quantizer, abstract. -/
def quantize_palette_fs (F : PILOps) (img : RGBImg) : RGBImg :=
  F.quantizeFS img

/-- pipeline.py lines 45-58 (`_tinted_flat_regions`). -/
def tinted_flat_regions (F : PILOps) (ui_rgb : RGBImg)
    (flat_mask : GrayImg) (settings : ProxySettings) : GrayImg :=
  let hsv := F.toHSV ui_rgb
  let saturation := hsv.2.1
  let value := hsv.2.2
  let sat_mask := pointL
    (fun s => if settings.ui_tint_saturation ≤ (s : ℤ) then 255 else 0)
    saturation
  let bright_mask := pointL
    (fun v => if settings.ui_tint_min_value ≤ (v : ℤ) then 255 else 0)
    value
  let tinted1 := chopsMultiply sat_mask bright_mask
  let tinted2 := chopsMultiply tinted1 flat_mask
  let tinted3 := F.maxFilter 3 tinted2
  let tinted4 := F.gaussBlur 1 tinted3
  pointL (fun p => if 32 ≤ p then 255 else 0) tinted4

/-- pipeline.py lines 23-29: hue targets (index, hue degrees) for the
tinted mix. -/
def TINTED_HUE_TARGETS : List (ℕ × ℚ) :=
  [(2, 0), (6, 30), (3, 60), (4, 120), (5, 240)]

/-- pipeline.py lines 61-63 (`_angular_distance`). -/
def angular_distance (h1 h2 : ℚ) : ℚ :=
  pymin |h1 - h2| (360 - |h1 - h2|)

/-- Python `min(items, key=f)` scan: first item with strictly minimal
key wins. -/
def pyMinByKey (f : ℕ × ℚ → ℚ) : List (ℕ × ℚ) → ℕ × ℚ → ℕ × ℚ
  | [], best => best
  | it :: rest, best => pyMinByKey f rest (if f it < f best then it else best)

/-- Python `min(l, key=f)` on a nonempty list (default never used). -/
def pyMinList (f : ℕ × ℚ → ℚ) (l : List (ℕ × ℚ)) (dflt : ℕ × ℚ) : ℕ × ℚ :=
  match l with
  | [] => dflt
  | hd :: tl => pyMinByKey f tl hd

/-- Python 3 `round()` — round half to even, half to even — on an exact
rational. -/
def pyroundEven (q : ℚ) : ℤ :=
  let f := q.floor
  let r := q - f
  if r < 1 / 2 then f
  else if 1 / 2 < r then f + 1
  else if f % 2 = 0 then f else f + 1

/-- pipeline.py lines 65-120 (`_tinted_palette_mix`): per pixel, choose
the hue-target base ink, search the best two-ink mix by squared error,
then Bayer-threshold between base and candidate.  (Dead code at
runtime: `composite_regional` raises before its call site; transcribed
for completeness.) -/
def tinted_palette_mix (F : PILOps) (ui_rgb : RGBImg) : RGBImg :=
  fun x y =>
    let p := ui_rgb x y
    let hue_raw := (F.toHSV ui_rgb).1 x y
    let sat := (F.toHSV ui_rgb).2.1 x y
    if sat ≤ 1 then palColor (nearest_palette_index p)
    else
      let hue : ℚ := ((hue_raw : ℚ) / 255) * 360
      let base_index :=
        (pyMinList (fun item => angular_distance hue item.2)
          TINTED_HUE_TARGETS (0, 0)).1
      let base_color := palColor base_index
      let base_error := sqDistZ base_color p
      let best := (List.range 7).foldl
        (fun (best : ℕ × ℚ × ℤ) candidate =>
          if candidate = base_index then best
          else
            let alpha := mixRatioQ p (base_index : ℤ) (candidate : ℤ)
            let cc := palColor candidate
            let approx : RGB :=
              ((pyroundEven (alpha * (base_color.1 : ℚ) +
                  (1 - alpha) * (cc.1 : ℚ))).toNat,
               (pyroundEven (alpha * (base_color.2.1 : ℚ) +
                  (1 - alpha) * (cc.2.1 : ℚ))).toNat,
               (pyroundEven (alpha * (base_color.2.2 : ℚ) +
                  (1 - alpha) * (cc.2.2 : ℚ))).toNat)
            let err := sqDistZ approx p
            if err < best.2.2 then (candidate, alpha, err) else best)
        (base_index, 1, base_error)
      let threshold : ℚ := ((bayerAt x y : ℚ) + 8) / 72
      if threshold ≤ best.2.1 then palColor base_index else palColor best.1

/-- pipeline.py lines 170-192: the final compositing step.  Start from
the dithered layer; paste the sharp composite where
`lighter(edge_mask, subtract(palette_mask, high_error_mask))` holds;
then re-paste the dithered layer wherever the photo mask holds. -/
def finalCompositeStep (dithered_layer sharp_composite : RGBImg)
    (edge_mask palette_mask high_error_mask photo_mask : GrayImg) :
    RGBImg :=
  let safe_palette_match := chopsSubtract palette_mask high_error_mask
  let ui_region_mask := chopsLighter edge_mask safe_palette_match
  let out1 := pasteMask dithered_layer sharp_composite ui_region_mask
  pasteMask out1 dithered_layer photo_mask

/-- pipeline.py lines 123-192 (`composite_regional`).  The Python
function can never return a raster: line 131 calls `enhance_ui`, whose
`darken_lines` raises NameError (enhance.py does not import
ImageChops); and even with that repaired, line 147
`palette_fit_mask(ui_enhanced, sharp_base, settings=settings)` would
raise TypeError, because `palette_fit_mask` accepts no `settings`
keyword argument.  Both failures are modelled as errors at their source
positions; the rest is transcribed faithfully as the dead code it is.
`globalSettings` stands for the module-level SETTINGS object (the
Python default for the `settings` parameter); `w`, `h` are the raster
dimensions PIL carries in the image object. -/
def composite_regional (F : PILOps) (globalSettings : ProxySettings)
    (w h : ℕ) (src : RGBImg) (settings : ProxySettings) :
    Except String RGBImg :=
  let masks := build_masks F src settings
  let edge_mask := masks.1
  let flat_mask := masks.2.2.1
  let photo_mask := masks.2.2.2
  match enhance_ui F src settings with
  | Except.error e => Except.error e
  | Except.ok ui_enhanced =>
    let sharp_base := quantize_palette_none ui_enhanced
    let diff := chopsDifferenceRGB src sharp_base
    let diff_gray := F.toGray diff
    let high_error0 := pointL (fun p => if 45 < p then 255 else 0) diff_gray
    let high_error1 := F.medianFilterL 3 high_error0
    let high_error_mask := F.gaussBlur 3 high_error1
    match (Except.error
        "TypeError: palette_fit_mask() got an unexpected keyword argument settings" :
        Except String GrayImg) with
    | Except.error e => Except.error e
    | Except.ok palette_mask =>
      let tinted_ui0 := tinted_flat_regions F ui_enhanced flat_mask settings
      let tinted_ui := chopsSubtract tinted_ui0 edge_mask
      let tinted_mix := tinted_palette_mix F ui_enhanced
      let sharp_composite := imageComposite tinted_mix sharp_base tinted_ui
      let photo_base := enhance_photo F src settings
      let dithered_layer :=
        if settings.photo_mode = "fs" then quantize_palette_fs F photo_base
        else if settings.photo_mode = "stucki" then
          stucki_error_diffusion w h photo_base
        else if settings.photo_mode = "ordered" then
          ordered_two_color photo_base flat_mask
        else
          imageComposite (ordered_two_color photo_base flat_mask)
            (stucki_error_diffusion w h photo_base) flat_mask
      Except.ok (finalCompositeStep dithered_layer sharp_composite
        edge_mask palette_mask high_error_mask photo_mask)

/-- A solid orange probe raster (a palette color). -/
def orangeImg : RGBImg := fun _ _ => (255, 165, 0)

/-- A solid black probe raster. -/
def blackImg : RGBImg := fun _ _ => (0, 0, 0)

/-- An all-zero mask. -/
def zeroMask : GrayImg := fun _ _ => 0

/-- An all-255 mask. -/
def fullMask : GrayImg := fun _ _ => 255

-- ===================================================================
-- THEOREMS
-- ===================================================================

/-- Bridge between the integer comparison used in the embedding of
`_nearest_bw` and the real-arithmetic luminance formula of the spec. -/
theorem luminance_le_iff (rgb : RGB) :
    luminanceQ rgb ≤ 200 ↔
      2126 * rgb.1 + 7152 * rgb.2.1 + 722 * rgb.2.2 ≤ 2000000 := by
  unfold luminanceQ
  rw [div_le_iff₀ (by norm_num : (0 : ℚ) < 10000)]
  constructor
  · intro h
    have h2 : (2126 * (rgb.1 : ℚ) + 7152 * (rgb.2.1 : ℚ) +
        722 * (rgb.2.2 : ℚ)) ≤ 2000000 := by linarith
    exact_mod_cast h2
  · intro h
    have h2 : (2126 * (rgb.1 : ℚ) + 7152 * (rgb.2.1 : ℚ) +
        722 * (rgb.2.2 : ℚ)) ≤ 2000000 := by exact_mod_cast h
    linarith

/-- Claim C2: for every neutral RGB triple, `nearest_palette_index`
bypasses the full palette search and chooses between black (index 0,
when the luminance is at most 200) and white (index 1, otherwise); in
particular (128,128,128) maps to black. -/
theorem claim_C2 (rgb : RGB) (h : is_neutral rgb = true) :
    (nearest_palette_index rgb = if luminanceQ rgb ≤ 200 then 0 else 1) ∧
      nearest_palette_index (128, 128, 128) = 0 := by
  constructor
  · rw [nearest_palette_index, if_pos h, nearest_bw]
    exact if_congr (luminance_le_iff rgb).symm rfl rfl
  · decide

/-- Witness for C2 at the concrete neutral input (128,128,128). -/
theorem claim_C2_witness :
    is_neutral (128, 128, 128) = true ∧
      ((nearest_palette_index (128, 128, 128) =
        if luminanceQ (128, 128, 128) ≤ 200 then 0 else 1) ∧
       nearest_palette_index (128, 128, 128) = 0) :=
  ⟨by decide, claim_C2 (128, 128, 128) (by decide)⟩

/-- Claim C3: every palette entry is its own nearest palette color,
including black and white, which take the neutral short-circuit path. -/
theorem claim_C3 (i : ℕ) (h : i < 7) :
    nearest_palette_index (palColor i) = i := by
  revert i h
  decide

/-- Witness for C3 at the concrete index 2 (red). -/
theorem claim_C3_witness :
    2 < 7 ∧ nearest_palette_index (palColor 2) = 2 :=
  ⟨by decide, claim_C3 2 (by decide)⟩

/-- Python indexing by a natural that is in range for the palette is
plain list lookup. -/
theorem pyListGet_natCast (a : ℕ) (ha : a < 7) :
    pyListGet EINK_PALETTE (a : ℤ) = palColor a := by
  interval_cases a <;> rfl

/-- The Python clamp `max(0.0, min(1.0, q))` is the identity on (0,1). -/
theorem pyclamp_of_mem (q : ℚ) (h0 : 0 < q) (h1 : q < 1) :
    pymax 0 (pymin 1 q) = q := by
  unfold pymin pymax
  rw [if_pos h1, if_pos h0]

/-- The Python clamp maps 0 to 0. -/
theorem pyclamp_zero : pymax 0 (pymin 1 (0 : ℚ)) = 0 := by
  unfold pymin pymax
  rw [if_pos (by norm_num : (0 : ℚ) < 1), if_neg (lt_irrefl 0)]

/-- Distinct palette entries are at strictly positive squared distance
(integer computation). -/
theorem sqDistZ_palette_pos :
    ∀ a : ℕ, a < 7 → ∀ b : ℕ, b < 7 → a ≠ b →
      0 < sqDistZ (palColor a) (palColor b) := by decide

/-- The rational squared distance is the cast of the integer one. -/
theorem sqDistQ_eq_cast (c d : RGB) :
    sqDistQ c d = ((sqDistZ c d : ℤ) : ℚ) := by
  unfold sqDistQ sqDistZ
  push_cast
  ring

/-- Distinct palette entries are at strictly positive rational squared
distance. -/
theorem sqDistQ_palette_pos (a b : ℕ) (ha : a < 7) (hb : b < 7)
    (hab : a ≠ b) : 0 < sqDistQ (palColor a) (palColor b) := by
  rw [sqDistQ_eq_cast]
  exact_mod_cast sqDistZ_palette_pos a ha b hb hab

/-- The least-squares numerator vanishes at the endpoint B. -/
theorem mixNumer_at_b (a b : ℕ) (ha : a < 7) (hb : b < 7) :
    mixNumerQ (palColor b) (a : ℤ) (b : ℤ) = 0 := by
  simp only [mixNumerQ, pyListGet_natCast a ha, pyListGet_natCast b hb]
  ring

/-- The least-squares numerator at the endpoint A is the squared
distance between the two palette colors. -/
theorem mixNumer_at_a (a b : ℕ) (ha : a < 7) (hb : b < 7) :
    mixNumerQ (palColor a) (a : ℤ) (b : ℤ) =
      sqDistQ (palColor a) (palColor b) := by
  simp only [mixNumerQ, sqDistQ, pyListGet_natCast a ha, pyListGet_natCast b hb]
  ring

/-- The guarded denominator is the squared distance plus the epsilon. -/
theorem mixDenom_palette (a b : ℕ) (ha : a < 7) (hb : b < 7) :
    mixDenomQ (a : ℤ) (b : ℤ) =
      sqDistQ (palColor a) (palColor b) + 1 / 1000000 := by
  simp only [mixDenomQ, sqDistQ, pyListGet_natCast a ha, pyListGet_natCast b hb]
  ring

/-- Claim C4 counterexample: `mix_ratio(EINK_PALETTE[0], 0, 1)` is not
exactly 1: the epsilon guard in the denominator makes it
195075 / (195075 + 10⁻⁶) < 1. -/
theorem claim_C4_counterexample :
    ¬ mixRatioQ (palColor 0) 0 1 = 1 := by
  have hS : sqDistQ (palColor 0) (palColor 1) = 195075 := by
    simp only [sqDistQ, palColor, EINK_PALETTE]
    norm_num
  have hq1 : sqDistQ (palColor 0) (palColor 1) /
      (sqDistQ (palColor 0) (palColor 1) + 1 / 1000000) < 1 := by
    rw [div_lt_one (by rw [hS]; norm_num)]
    linarith [hS]
  have h : mixRatioQ (palColor 0) ((0 : ℕ) : ℤ) ((1 : ℕ) : ℤ) =
      sqDistQ (palColor 0) (palColor 1) /
        (sqDistQ (palColor 0) (palColor 1) + 1 / 1000000) := by
    unfold mixRatioQ
    rw [mixNumer_at_a 0 1 (by norm_num) (by norm_num),
      mixDenom_palette 0 1 (by norm_num) (by norm_num)]
    exact pyclamp_of_mem _ (by rw [hS]; positivity) hq1
  intro hcontra
  rw [show ((0 : ℕ) : ℤ) = 0 from rfl, show ((1 : ℕ) : ℤ) = 1 from rfl] at h
  rw [hcontra] at h
  exact absurd h.symm (ne_of_lt hq1)

/-- Claim C4 (amended): for distinct palette indices A ≠ B,
`mix_ratio(EINK_PALETTE[B], A, B)` is exactly 0, while
`mix_ratio(EINK_PALETTE[A], A, B)` equals S / (S + 10⁻⁶) with
S = ‖A − B‖² > 0, which is strictly less than 1 because of the epsilon
guard in the denominator. -/
theorem claim_C4 (a b : ℕ) (ha : a < 7) (hb : b < 7) (hab : a ≠ b) :
    mixRatioQ (palColor b) (a : ℤ) (b : ℤ) = 0 ∧
      mixRatioQ (palColor a) (a : ℤ) (b : ℤ) =
        sqDistQ (palColor a) (palColor b) /
          (sqDistQ (palColor a) (palColor b) + 1 / 1000000) ∧
      mixRatioQ (palColor a) (a : ℤ) (b : ℤ) < 1 := by
  have hS : 0 < sqDistQ (palColor a) (palColor b) :=
    sqDistQ_palette_pos a b ha hb hab
  have hD : 0 < sqDistQ (palColor a) (palColor b) + 1 / 1000000 := by linarith
  have hq1 : sqDistQ (palColor a) (palColor b) /
      (sqDistQ (palColor a) (palColor b) + 1 / 1000000) < 1 := by
    rw [div_lt_one hD]
    linarith
  have halpha : mixRatioQ (palColor a) (a : ℤ) (b : ℤ) =
      sqDistQ (palColor a) (palColor b) /
        (sqDistQ (palColor a) (palColor b) + 1 / 1000000) := by
    unfold mixRatioQ
    rw [mixNumer_at_a a b ha hb, mixDenom_palette a b ha hb]
    exact pyclamp_of_mem _ (by positivity) hq1
  refine ⟨?_, halpha, by rw [halpha]; exact hq1⟩
  unfold mixRatioQ
  rw [mixNumer_at_b a b ha hb, mixDenom_palette a b ha hb, zero_div]
  exact pyclamp_zero

/-- Witness for the amended C4 at the concrete pair A = 0, B = 1. -/
theorem claim_C4_witness :
    (0 : ℕ) < 7 ∧ (1 : ℕ) < 7 ∧ (0 : ℕ) ≠ 1 ∧
      (mixRatioQ (palColor 1) 0 1 = 0 ∧
        mixRatioQ (palColor 0) 0 1 =
          sqDistQ (palColor 0) (palColor 1) /
            (sqDistQ (palColor 0) (palColor 1) + 1 / 1000000) ∧
        mixRatioQ (palColor 0) 0 1 < 1) :=
  ⟨by decide, by decide, by decide, claim_C4 0 1 (by decide) (by decide) (by decide)⟩

/-- Bitmask identity used to restate `y & 7` as `y mod 8`. -/
theorem land_seven (n : ℕ) : n &&& 7 = n % 8 := by
  have h := Nat.and_pow_two_sub_one_eq_mod n 3
  norm_num at h
  exact h

/-- Claim C5: `ordered_two_color` maps pixel (x,y) to palette color A
when `mix_ratio(p, A, B) ≥ (bayer[y mod 8][x mod 8] + 8) / 72` and to
palette color B otherwise, with (A,B) the nearest two palette indices
of p. -/
theorem claim_C5 (img : RGBImg) (grad_mask : GrayImg) (x y : ℕ) :
    ordered_two_color img grad_mask x y =
      (if (((bayerM.getD (y % 8) []).getD (x % 8) 0 : ℚ) + 8) / 72 ≤
            mixRatioQ (img x y) (nearest_two_palette (img x y)).1
              (nearest_two_palette (img x y)).2 then
          pyListGet EINK_PALETTE (nearest_two_palette (img x y)).1
        else pyListGet EINK_PALETTE (nearest_two_palette (img x y)).2) := by
  simp only [ordered_two_color, bayerAt, land_seven]

/-- Each `nearestStep` keeps the running index or takes the scanned
one. -/
theorem nearestStep_fst (rgb : RGB) (acc : ℕ × Option ℤ) (ip : ℕ × RGB) :
    (nearestStep rgb acc ip).1 = ip.1 ∨ (nearestStep rgb acc ip).1 = acc.1 := by
  unfold nearestStep
  split_ifs <;> simp

/-- The index produced by the nearest-color scan is the seed or one of
the scanned indices. -/
theorem foldl_nearestStep_fst (rgb : RGB) (l : List (ℕ × RGB)) :
    ∀ acc : ℕ × Option ℤ,
      (l.foldl (nearestStep rgb) acc).1 = acc.1 ∨
        (l.foldl (nearestStep rgb) acc).1 ∈ l.map Prod.fst := by
  induction l with
  | nil => exact fun acc => Or.inl rfl
  | cons hd tl ih =>
    intro acc
    rw [List.foldl_cons, List.map_cons]
    rcases ih (nearestStep rgb acc hd) with h | h
    · rcases nearestStep_fst rgb acc hd with h2 | h2
      · exact Or.inr (by rw [h, h2]; exact List.mem_cons_self _ _)
      · exact Or.inl (by rw [h, h2])
    · exact Or.inr (List.mem_cons_of_mem _ h)

/-- `nearest_palette_index` always lands inside the 7-entry palette. -/
theorem nearest_palette_index_lt (rgb : RGB) :
    nearest_palette_index rgb < 7 := by
  unfold nearest_palette_index
  split_ifs with h
  · unfold nearest_bw
    split_ifs <;> norm_num
  · rcases foldl_nearestStep_fst rgb EINK_PALETTE.enum (0, Option.none) with h2 | h2
    · rw [h2]
      norm_num
    · have he : EINK_PALETTE.enum.map Prod.fst = [0, 1, 2, 3, 4, 5, 6] := rfl
      rw [he] at h2
      simp only [List.mem_cons, List.not_mem_nil, or_false] at h2
      rcases h2 with h2 | h2 | h2 | h2 | h2 | h2 | h2 <;> omega

/-- `setPix` with a palette color preserves palette closure. -/
theorem setPix_palClosed {g : RGBImg} (hg : palClosed g) (x y : ℕ)
    {v : RGB} (hv : ∃ i, i < 7 ∧ v = palColor i) :
    palClosed (setPix g x y v) := by
  intro a b
  unfold setPix
  split_ifs with h
  · exact hv
  · exact hg a b

/-- The output half of the Stucki fold stays palette-closed. -/
theorem stucki_foldl_palClosed (w h : ℕ) (l : List (ℕ × ℕ × Bool)) :
    ∀ st : RGBImg × RGBImg, palClosed st.2 →
      palClosed ((l.foldl (stuckiVisit w h) st)).2 := by
  induction l with
  | nil => exact fun st hst => hst
  | cons hd tl ih =>
    intro st hst
    rw [List.foldl_cons]
    refine ih _ ?_
    show palClosed (stuckiVisit w h st hd).2
    exact setPix_palClosed hst _ _
      ⟨nearest_palette_index (st.1 hd.1 hd.2.1),
        nearest_palette_index_lt _, rfl⟩

/-- The serpentine row of the source equals the claim-side one. -/
theorem serpRow_eq (w y : ℕ) : serpRow w y = serpSpecRow w y := by
  unfold serpRow serpSpecRow
  cases h : y % 2 == 1 <;> simp [h]

/-- The scan order of the source equals the claim-side one. -/
theorem serpPositions_eq (w h : ℕ) :
    serpPositions w h = serpSpecPositions w h := by
  unfold serpPositions serpSpecPositions
  exact congrArg (List.range h).bind (funext (serpRow_eq w))

/-- Claim C6: the embedded `stucki_error_diffusion` coincides with the
algorithm description of the claim (serpentine scan, nearest-palette
quantization of the working value, Stucki weights [2,4,8,4,2]/42 on
row+1 and [1,2,4,2,1]/42 on row+2 at offsets −2..+2 mirrored on
reversed rows, channels clamped to [0,255]), and every pixel of its
output is one of the 7 palette entries.  The image of the caller is
untouched: the Python code mutates a fresh copy, and the embedding is
pure. -/
theorem claim_C6 (w h : ℕ) (img : RGBImg) :
    stucki_error_diffusion w h img = stucki_spec w h img ∧
      ∀ x y : ℕ, ∃ i, i < 7 ∧
        stucki_error_diffusion w h img x y = palColor i := by
  constructor
  · unfold stucki_error_diffusion stucki_spec
    rw [serpPositions_eq]
    rfl
  · intro x y
    exact stucki_foldl_palClosed w h (serpPositions w h)
      (img, fun _ _ => (0, 0, 0)) (fun a b => ⟨0, by norm_num, rfl⟩) x y

/-- A non-inverted `threshold_channel` output is always 0 or 255, for
any input values whatsoever. -/
theorem threshold_channel_eq (c : GrayImg) (t : ℤ) (x y : ℕ) :
    threshold_channel c t false x y = 255 ∨
      threshold_channel c t false x y = 0 := by
  show (if t ≤ (c x y : ℤ) then (255 : ℕ) else 0) = 255 ∨
    (if t ≤ (c x y : ℤ) then (255 : ℕ) else 0) = 0
  split_ifs <;> simp

/-- Claim C7: for every filter behavior, every source raster and every
settings snapshot, wherever the texture/photo mask built by
`build_masks` is at full strength 255, the post-subtraction clean edge
mask (line 54, before despeckle and blur) is 0 — the pre-blur hard
masks are never simultaneously at 255. -/
theorem claim_C7 (F : PILOps) (src : RGBImg) (s : ProxySettings)
    (x y : ℕ)
    (hphoto : (buildMasksSteps F src s).photo_mask x y = 255) :
    (buildMasksSteps F src s).clean_edges_raw x y = 0 := by
  show min 255 ((buildMasksSteps F src s).strong_edges x y -
    (buildMasksSteps F src s).photo_mask x y) = 0
  rw [hphoto]
  rcases threshold_channel_eq (F.findEdges (F.toGray src)) s.edge_threshold
      x y with hs | hs
  · show min 255 ((buildMasksSteps F src s).strong_edges x y - 255) = 0
    have hstrong : (buildMasksSteps F src s).strong_edges x y = 255 := hs
    rw [hstrong]
    decide
  · have hstrong : (buildMasksSteps F src s).strong_edges x y = 0 := hs
    rw [hstrong]
    decide

/-- Witness for C7: with the trivial filter instantiation on a solid
white raster and default settings, the photo mask is at 255 at (0,0),
and the clean edge mask is 0 there. -/
theorem claim_C7_witness :
    (buildMasksSteps trivialOps whiteImg defaultSettings).photo_mask 0 0 =
        255 ∧
      (buildMasksSteps trivialOps whiteImg defaultSettings).clean_edges_raw
        0 0 = 0 :=
  ⟨rfl, claim_C7 trivialOps whiteImg defaultSettings 0 0 rfl⟩

/-- Claim C10 (code_bug): `palette_fit_mask` with its default `None`
threshold — the only form its pipeline call site could use, since that
call passes a `settings` keyword the function does not accept — reads
the live process-global settings object: with the same source raster,
the same quantized raster and the same (absent) threshold argument, two
different global-settings values produce different mask pixels, so the
stage is not a function of (raster, snapshot) alone. -/
theorem claim_C10 :
    palette_fit_mask gA srcProbe quantProbe Option.none 0 0 = 255 ∧
      palette_fit_mask gB srcProbe quantProbe Option.none 0 0 = 0 ∧
      gA.ui_palette_threshold ≠ gB.ui_palette_threshold := by
  refine ⟨rfl, rfl, by decide⟩

/-- Claim C9: for every RGB triple and every pair of indices (in range
or not, equal or not), the mix-ratio denominator is strictly positive —
the epsilon guard keeps it away from zero — and the clamped result lies
in [0,1]. -/
theorem claim_C9 (rgb : RGB) (a b : ℤ) :
    0 < mixDenomQ a b ∧ 0 ≤ mixRatioQ rgb a b ∧ mixRatioQ rgb a b ≤ 1 := by
  refine ⟨?_, ?_, ?_⟩
  · unfold mixDenomQ
    positivity
  · unfold mixRatioQ pymax
    split_ifs with h
    · linarith
    · linarith
  · unfold mixRatioQ pymax pymin
    split_ifs <;> linarith

/-- MULDIV255 by a zero mask weight gives 0. -/
theorem muldiv255_zero (a : ℕ) : muldiv255 a 0 = 0 := by
  unfold muldiv255
  norm_num

/-- MULDIV255 by the full mask weight 255 is exact on 8-bit values. -/
theorem muldiv255_255 (a : ℕ) (ha : a ≤ 255) : muldiv255 a 255 = a := by
  revert a ha
  decide

/-- The Pillow blend at mask value 255 copies the source channel
exactly. -/
theorem pilBlend_255 (a b : ℕ) (hb : b ≤ 255) : pilBlend 255 a b = b := by
  unfold pilBlend
  rw [Nat.sub_self, muldiv255_zero, muldiv255_255 b hb, Nat.zero_add]

/-- Claim C1 (code_bug): `composite_regional` never returns a raster at
all — for every filter behavior, every global-settings value, every
raster and every settings snapshot it raises NameError, because
enhance.py line 38 references ImageChops without importing it.  No
returned pixel exists for the palette-closure guarantee to hold of;
this contradicts the tests of the repository itself, which call
`composite_regional` and assert on its result. -/
theorem claim_C1 (F : PILOps) (g : ProxySettings) (w h : ℕ)
    (src : RGBImg) (s : ProxySettings) :
    composite_regional F g w h src s =
      Except.error "NameError: name ImageChops is not defined" := rfl

/-- Claim C8 (code_bug): the compositing step of pipeline.py lines
170-192 does repaint the dithered photo-track layer wherever the photo
mask is at full strength 255, whatever the edge, palette-fit and
high-error masks contain — but `composite_regional` as shipped raises
before ever reaching this step (see claim C1), so the property is not
true of the function itself. -/
theorem claim_C8 (dithered sharp : RGBImg)
    (edge_mask palette_mask high_error_mask photo_mask : GrayImg)
    (x y : ℕ) (hr : (dithered x y).1 ≤ 255)
    (hg : (dithered x y).2.1 ≤ 255) (hb : (dithered x y).2.2 ≤ 255)
    (hm : photo_mask x y = 255) :
    finalCompositeStep dithered sharp edge_mask palette_mask
      high_error_mask photo_mask x y = dithered x y := by
  simp only [finalCompositeStep, pasteMask]
  rw [hm, pilBlend_255 _ _ hr, pilBlend_255 _ _ hg, pilBlend_255 _ _ hb]

/-- Witness for C8 at concrete layers: an orange dithered layer, a
black sharp layer, zero auxiliary masks and a full photo mask. -/
theorem claim_C8_witness :
    (orangeImg 0 0).1 ≤ 255 ∧ (orangeImg 0 0).2.1 ≤ 255 ∧
      (orangeImg 0 0).2.2 ≤ 255 ∧ fullMask 0 0 = 255 ∧
      finalCompositeStep orangeImg blackImg zeroMask zeroMask zeroMask
        fullMask 0 0 = orangeImg 0 0 :=
  ⟨by decide, by decide, by decide, rfl,
    claim_C8 orangeImg blackImg zeroMask zeroMask zeroMask fullMask 0 0
      (by decide) (by decide) (by decide) rfl⟩

end EinkProxy
